import Mathlib

/-!
Verification of the X11 backend and EGL context logic of this GLFW source
subset (src/src/loader.c, src/src/egl_context.c, include/GLFW/glfw3loader.h).

The development shallowly embeds the relevant C functions as executable Lean
definitions over explicit state records, and proves the specified properties
about them.  Machine integers are modelled as `Nat` with explicit reduction
modulo `2 ^ 64` where the C code relies on unsigned wraparound (the X11
`Time` type).  Fallible operations return `Option` or `Except`.
-/

/-! ## Module loader (loader.c lines 9-46, glfw3loader.h) -/

/-- A function pointer is modelled as an opaque numeric token; `none` models a
null pointer.  Mirrors `GLFWmoduleloader` from glfw3loader.h: three callbacks
plus a user-data pointer. -/
structure GLFWmoduleloader where
  openFn : Option Nat
  closeFn : Option Nat
  resolveFn : Option Nat
  user : Nat
  deriving Repr, DecidableEq

/-- The all-zero `GLFWmoduleloader` produced by `memset(&_glfwModuleLoader, 0, ...)`. -/
def zeroModuleLoader : GLFWmoduleloader :=
  { openFn := none, closeFn := none, resolveFn := none, user := 0 }

/-- The GLFW error kinds reported through `_glfwInputError` that this
development needs to distinguish. -/
inductive GLFWerror where
  | invalidValue
  | apiUnavailable
  | formatUnavailable
  | platformError
  deriving Repr, DecidableEq

/-- Embedding of `glfwInitModuleLoader` (loader.c lines 11-22).  The input is
`some l` for a non-null `loader` argument and `none` for a null one; the
result is the new value of the static `_glfwModuleLoader` together with the
error reported, if any. -/
def glfwInitModuleLoader (loader : Option GLFWmoduleloader)
    (state : GLFWmoduleloader) : GLFWmoduleloader × Option GLFWerror :=
  match loader with
  | some l =>
    if l.openFn.isSome ∧ l.closeFn.isSome ∧ l.resolveFn.isSome then
      (l, none)
    else
      (state, some GLFWerror.invalidValue)
  | none => (zeroModuleLoader, none)

/-- Which implementation a module-loader dispatch function ends up calling:
the installed callback (with its token) or the default platform function. -/
inductive ModuleDispatch where
  | custom (fn : Nat)
  | platform
  deriving Repr, DecidableEq

/-- Embedding of `_glfwModuleLoaderOpen` (loader.c lines 24-29): dispatches to
the installed `open` callback when present, else the platform loader. -/
def glfwModuleLoaderOpen (state : GLFWmoduleloader) : ModuleDispatch :=
  match state.openFn with
  | some f => ModuleDispatch.custom f
  | none => ModuleDispatch.platform

/-- Embedding of `_glfwModuleLoaderClose` (loader.c lines 31-37). -/
def glfwModuleLoaderClose (state : GLFWmoduleloader) : ModuleDispatch :=
  match state.closeFn with
  | some f => ModuleDispatch.custom f
  | none => ModuleDispatch.platform

/-- Embedding of `_glfwModuleLoaderResolve` (loader.c lines 39-44). -/
def glfwModuleLoaderResolve (state : GLFWmoduleloader) : ModuleDispatch :=
  match state.resolveFn with
  | some f => ModuleDispatch.custom f
  | none => ModuleDispatch.platform

/-! ## EGL context destruction (egl_context.c lines 328-353) -/

/-- The platform identifiers relevant to `destroyContextEGL`. -/
inductive PlatformID where
  | x11
  | wayland
  | win32
  | cocoa
  | nullPlatform
  deriving Repr, DecidableEq

/-- The client API of a created context (`window->context.client`). -/
inductive ClientAPI where
  | openGL
  | openGLES
  | noAPI
  deriving Repr, DecidableEq

/-- The EGL-specific per-window context state touched by `destroyContextEGL`:
the dynamically loaded client GL/GLES library handle, the EGL surface and the
EGL context handle, each `none` when null. -/
structure EGLContextState where
  client : Option Nat
  surface : Option Nat
  handle : Option Nat
  deriving Repr, DecidableEq

/-- Embedding of `destroyContextEGL` (egl_context.c lines 328-353).  Returns
the post-destruction context state, paired with whether the client library was
freed (`_glfwPlatformFreeModule` called on it).  The source frees the client
library only when the platform is not X11 or the context client API is not
desktop OpenGL, to avoid unloading libGL while the X11 display is open. -/
def destroyContextEGL (platformID : PlatformID) (clientAPI : ClientAPI)
    (ctx : EGLContextState) : EGLContextState × Bool :=
  let step1 : EGLContextState × Bool :=
    if platformID ≠ PlatformID.x11 ∨ clientAPI ≠ ClientAPI.openGL then
      match ctx.client with
      | some _ => ({ ctx with client := none }, true)
      | none => (ctx, false)
    else
      (ctx, false)
  let step2 : EGLContextState :=
    if (step1.1.surface).isSome then { step1.1 with surface := none } else step1.1
  let step3 : EGLContextState :=
    if step2.handle.isSome then { step2 with handle := none } else step2
  (step3, step1.2)

/-- The configuration in which the native connection depends on symbols from
the client library, per the comment in `destroyContextEGL`: an X11 display is
open and the context client API is desktop OpenGL (libGL.so.1). -/
def connectionDependsOnClientLib (platformID : PlatformID)
    (clientAPI : ClientAPI) : Prop :=
  platformID = PlatformID.x11 ∧ clientAPI = ClientAPI.openGL

instance (p : PlatformID) (c : ClientAPI) :
    Decidable (connectionDependsOnClientLib p c) := by
  unfold connectionDependsOnClientLib
  infer_instance

/-! ## Selection and clipboard state (loader.c lines 985-1126, 3109-3131) -/

/-- Byte strings are lists of byte values. -/
abbrev ByteString := List Nat

/-- The part of the process-wide X11 state that the clipboard fast path
touches: the cached strings for the two selections and the server-side owner
of the CLIPBOARD selection (`true` when the owner is our helper window). -/
structure X11SelectionState where
  clipboardString : Option ByteString
  primarySelectionString : Option ByteString
  clipboardOwnedByHelper : Bool
  deriving Repr, DecidableEq

/-- Embedding of `_glfwSetClipboardStringX11` (loader.c lines 3109-3126):
duplicate the string into the cache and take ownership of the CLIPBOARD
selection via `XSetSelectionOwner` with the helper window. -/
def glfwSetClipboardStringX11 (s : ByteString) (st : X11SelectionState) :
    X11SelectionState :=
  { st with clipboardString := some s, clipboardOwnedByHelper := true }

/-- Result of reading the clipboard: the string obtained (if any) and whether
a selection-conversion round trip to the server was issued. -/
structure SelectionReadResult where
  value : Option ByteString
  roundTrip : Bool
  deriving Repr, DecidableEq

/-- Embedding of the owner fast path of `getSelectionString` (loader.c lines
996-1002) as invoked for the CLIPBOARD selection by
`_glfwGetClipboardStringX11` (lines 3128-3131): when `XGetSelectionOwner`
returns the helper window, the cached string is returned with no conversion
round trip; otherwise a conversion exchange with the server is required
(modelled only by its round-trip marker here, the full INCR reconstruction is
modelled separately below). -/
def glfwGetClipboardStringX11 (st : X11SelectionState) : SelectionReadResult :=
  if st.clipboardOwnedByHelper then
    { value := st.clipboardString, roundTrip := false }
  else
    { value := none, roundTrip := true }

/-! ## INCR selection transfer (loader.c lines 484-499, 1051-1104) -/

/-- Encoding of one Latin-1 byte as UTF-8, following `_glfwEncodeUTF8` as used
by `convertLatin1toUTF8` (loader.c lines 484-499): bytes below 0x80 are copied
verbatim, bytes with the high bit set become the standard two-byte sequence. -/
def encodeUTF8Latin1 (b : Nat) : List Nat :=
  if b < 128 then [b] else [192 + b / 64, 128 + b % 64]

/-- Embedding of `convertLatin1toUTF8` (loader.c lines 484-499): every byte of
the source is encoded independently and the encodings are concatenated. -/
def convertLatin1toUTF8 (s : ByteString) : ByteString :=
  s.flatMap encodeUTF8Latin1

/-- The bytes `strcat` actually copies from a property chunk: everything up to
the first NUL byte. -/
def cstrBytes (d : ByteString) : ByteString :=
  d.takeWhile (fun b => b ≠ 0)

/-- Embedding of the INCR accumulation loop of `getSelectionString` (loader.c
lines 1056-1103).  `chunks` is the sequence of property chunks delivered by
the selection owner, in arrival order; `acc` is the accumulated string buffer
(`none` for the initial NULL pointer).  Each non-empty chunk is appended via
`strcat`; the first empty chunk terminates the loop, yielding the buffer. -/
def incrAccumulate (acc : Option ByteString) :
    List ByteString → Option ByteString
  | [] => none
  | data :: rest =>
    if data.length ≠ 0 then
      incrAccumulate (some (acc.getD [] ++ cstrBytes data)) rest
    else
      acc

/-- Embedding of the INCR branch of `getSelectionString` (loader.c lines
1051-1104): reconstruct the transferred string from the chunk sequence and,
when the negotiated target was the legacy 8-bit `XA_STRING` encoding, decode
the completed buffer from Latin-1 to UTF-8 once at the very end. -/
def getSelectionStringINCR (isLegacyTarget : Bool)
    (chunks : List ByteString) : Option ByteString :=
  match incrAccumulate none chunks with
  | none => none
  | some s => some (if isLegacyTarget then convertLatin1toUTF8 s else s)

/-! ## Key event handling (loader.c lines 1192-1400) -/

/-- Unsigned 64-bit subtraction as performed on the X11 `Time` type: the
difference reduced modulo `2 ^ 64`. -/
def timeSub64 (a b : Nat) : Nat :=
  (a + 2 ^ 64 - b % 2 ^ 64) % 2 ^ 64

/-- An event sitting in the X event queue, as far as the key-release
suppression logic inspects it: either a key press with its window, keycode and
timestamp, or anything else. -/
inductive QueuedEvent where
  | keyPress (window keycode time : Nat)
  | other
  deriving Repr, DecidableEq

/-- Embedding of the `KeyRelease` branch of `processEvent` (loader.c lines
1361-1399), restricted to whether `_glfwInputKey(..., GLFW_RELEASE, ...)` is
reached.  When detectable auto-repeat is unavailable and the queue's next
event is a key press for the same window and keycode whose timestamp is less
than 20 ms later (unsigned difference), the release is discarded as a
server-generated repeat; otherwise it is delivered. -/
def keyReleaseDelivered (detectable : Bool) (window keycode time : Nat)
    (queue : List QueuedEvent) : Bool :=
  if detectable then
    true
  else
    match queue with
    | [] => true
    | next :: _ =>
      match next with
      | QueuedEvent.keyPress w kc t =>
        if w = window ∧ kc = keycode ∧ timeSub64 t time < 20 then
          false
        else
          true
      | QueuedEvent.other => true

/-- The claim's notion of a release being immediately followed by a repeat
press: the next queued event is a press of the same scancode on the same
window, timestamped within 20 ms after the release. -/
def isRepeatPressHead (window keycode time : Nat)
    (queue : List QueuedEvent) : Prop :=
  ∃ t rest, queue = QueuedEvent.keyPress window keycode t :: rest ∧
    time ≤ t ∧ t < time + 20

/-- Embedding of the input-method duplicate-suppression logic in the
`KeyPress` branch of `processEvent` (loader.c lines 1295-1311), for a window
with an attached input-method context.  `stored` is the per-keycode
last-press-timestamp table `window->x11.keyPressTimes`.  The result is whether
a logical key press is delivered, paired with the updated table: the press is
delivered when the wrapped timestamp difference equals the event time (first
press for this key, stored time zero) or is nonzero and below `2 ^ 31`, and
then only for a nonzero keycode; the stored time is rewritten exactly when
that comparison succeeds. -/
def processKeyPressIM (time keycode : Nat) (stored : Nat → Nat) :
    Bool × (Nat → Nat) :=
  let diff := timeSub64 time (stored keycode)
  if diff = time ∨ (0 < diff ∧ diff < 2 ^ 31) then
    (decide (keycode ≠ 0), fun k => if k = keycode then time else stored k)
  else
    (false, stored)

/-! ## EGL config selection (egl_context.c lines 88-240) -/

/-- EGL constants used by `chooseEGLConfig`, with their header values. -/
def EGL_OPENGL_ES_BIT : Nat := 1

/-- EGL_OPENGL_ES2_BIT (0x0004). -/
def EGL_OPENGL_ES2_BIT : Nat := 4

/-- EGL_OPENGL_BIT (0x0008). -/
def EGL_OPENGL_BIT : Nat := 8

/-- EGL_WINDOW_BIT (0x0004). -/
def EGL_WINDOW_BIT : Nat := 4

/-- EGL_PBUFFER_BIT (0x0001). -/
def EGL_PBUFFER_BIT : Nat := 1

/-- EGL_RGB_BUFFER (0x308E). -/
def EGL_RGB_BUFFER : Nat := 12430

/-- The attributes of one driver-reported `EGLConfig`, as queried through
`getEGLConfigAttrib` in `chooseEGLConfig`, together with the outcome of the
X11 transparent-visual probe and the opaque handle. -/
structure NativeEGLConfig where
  colorBufferType : Nat
  surfaceType : Nat
  nativeVisualID : Nat
  renderableType : Nat
  redBits : Nat
  greenBits : Nat
  blueBits : Nat
  alphaBits : Nat
  depthBits : Nat
  stencilBits : Nat
  samples : Nat
  visualTransparent : Bool
  handle : Nat
  deriving Repr, DecidableEq

/-- The requested framebuffer configuration (`_GLFWfbconfig` fields consulted
by `chooseEGLConfig` and the closest-match chooser). -/
structure FBConfig where
  redBits : Nat
  greenBits : Nat
  blueBits : Nat
  alphaBits : Nat
  depthBits : Nat
  stencilBits : Nat
  samples : Nat
  stereo : Bool
  doublebuffer : Bool
  transparent : Bool
  deriving Repr, DecidableEq

/-- A surviving candidate (`_GLFWfbconfig` entry written into
`usableConfigs`). -/
structure UsableConfig where
  redBits : Nat
  greenBits : Nat
  blueBits : Nat
  alphaBits : Nat
  depthBits : Nat
  stencilBits : Nat
  samples : Nat
  doublebuffer : Bool
  transparent : Bool
  handle : Nat
  deriving Repr, DecidableEq

/-- The renderable-type bit demanded from a config, from the requested client
API family and major version (egl_context.c lines 98-106). -/
def eglAPIBit (client : ClientAPI) (major : Nat) : Nat :=
  match client with
  | ClientAPI.openGLES => if major = 1 then EGL_OPENGL_ES_BIT else EGL_OPENGL_ES2_BIT
  | _ => EGL_OPENGL_BIT

/-- The surface-type bit demanded from a config (egl_context.c lines
136-141): pbuffer-capable on the null platform, window-capable elsewhere. -/
def eglSurfaceBit (platform : PlatformID) : Nat :=
  if platform = PlatformID.nullPlatform then EGL_PBUFFER_BIT else EGL_WINDOW_BIT

/-- Outcome of the per-config filter in the enumeration loop of
`chooseEGLConfig`: dropped by an early check, dropped solely by the
renderable-API check (recorded in `wrongApiAvailable`), or kept. -/
inductive ConfigFilterResult where
  | skipped
  | wrongAPI
  | usable (u : UsableConfig)
  deriving Repr, DecidableEq

/-- The per-config body of the enumeration loop of `chooseEGLConfig`
(egl_context.c lines 127-201): keep only RGB(A) color-buffer configs, only
window-capable (pbuffer-capable on the null platform) configs, on X11 only
configs with a native visual (probing that visual for an alpha channel when
transparency was requested), record configs failing the renderable-API bit as
wrong-API, on Wayland without EGL_EXT_present_opaque drop opaque-requested
configs with an alpha channel, and otherwise emit a candidate. -/
def filterEGLConfig (platform : PlatformID) (extPresentOpaque : Bool)
    (fb : FBConfig) (apiBit : Nat) (n : NativeEGLConfig) : ConfigFilterResult :=
  if n.colorBufferType ≠ EGL_RGB_BUFFER then
    ConfigFilterResult.skipped
  else if n.surfaceType &&& eglSurfaceBit platform = 0 then
    ConfigFilterResult.skipped
  else if platform = PlatformID.x11 ∧ n.nativeVisualID = 0 then
    ConfigFilterResult.skipped
  else if n.renderableType &&& apiBit = 0 then
    ConfigFilterResult.wrongAPI
  else if platform = PlatformID.wayland ∧ ¬extPresentOpaque ∧
      ¬fb.transparent ∧ 0 < n.alphaBits then
    ConfigFilterResult.skipped
  else
    ConfigFilterResult.usable
      { redBits := n.redBits, greenBits := n.greenBits, blueBits := n.blueBits,
        alphaBits := n.alphaBits, depthBits := n.depthBits,
        stencilBits := n.stencilBits, samples := n.samples,
        doublebuffer := fb.doublebuffer,
        transparent := platform = PlatformID.x11 ∧ fb.transparent ∧
          n.visualTransparent,
        handle := n.handle }

/-- The enumeration loop of `chooseEGLConfig` over all native configs: the
surviving candidate list in order, paired with the `wrongApiAvailable`
flag. -/
def collectUsable (platform : PlatformID) (extPresentOpaque : Bool)
    (fb : FBConfig) (apiBit : Nat) :
    List NativeEGLConfig → List UsableConfig × Bool
  | [] => ([], false)
  | n :: rest =>
    let r := collectUsable platform extPresentOpaque fb apiBit rest
    match filterEGLConfig platform extPresentOpaque fb apiBit n with
    | ConfigFilterResult.skipped => r
    | ConfigFilterResult.wrongAPI => (r.1, true)
    | ConfigFilterResult.usable u => (u :: r.1, r.2)

/-- How far a candidate falls short of the request: the number of channels
where it offers fewer bits (or samples) than requested. -/
def fbShortfall (d : FBConfig) (u : UsableConfig) : Nat :=
  (if u.redBits < d.redBits then 1 else 0) +
  (if u.greenBits < d.greenBits then 1 else 0) +
  (if u.blueBits < d.blueBits then 1 else 0) +
  (if u.alphaBits < d.alphaBits then 1 else 0) +
  (if u.depthBits < d.depthBits then 1 else 0) +
  (if u.stencilBits < d.stencilBits then 1 else 0) +
  (if u.samples < d.samples then 1 else 0)

/-- Total absolute channel distance between a request and a candidate. -/
def fbDist (d : FBConfig) (u : UsableConfig) : Nat :=
  ((d.redBits - u.redBits) + (u.redBits - d.redBits)) +
  ((d.greenBits - u.greenBits) + (u.greenBits - d.greenBits)) +
  ((d.blueBits - u.blueBits) + (u.blueBits - d.blueBits)) +
  ((d.alphaBits - u.alphaBits) + (u.alphaBits - d.alphaBits)) +
  ((d.depthBits - u.depthBits) + (u.depthBits - d.depthBits)) +
  ((d.stencilBits - u.stencilBits) + (u.stencilBits - d.stencilBits)) +
  ((d.samples - u.samples) + (u.samples - d.samples))

/-- Modelled from the spec: `_glfwChooseFBConfig` (the shared closest-match
chooser in context.c, which is not part of this source subset) selects from
the surviving candidates the closest match to the request — exact matches
preferred, and for each channel candidates that meet or exceed the request
preferred over those that fall short — returning `none` exactly when no
candidate survives. -/
def glfwChooseFBConfig (d : FBConfig) :
    List UsableConfig → Option UsableConfig
  | [] => none
  | u :: rest =>
    match glfwChooseFBConfig d rest with
    | none => some u
    | some v =>
      if fbShortfall d u < fbShortfall d v ∨
          (fbShortfall d u = fbShortfall d v ∧ fbDist d u ≤ fbDist d v) then
        some u
      else
        some v

/-- The distinct error reports issued by `chooseEGLConfig`, one per
`_glfwInputError` call site (egl_context.c lines 108-234); the three
api-unavailable variants carry the requested API family and version in their
message text. -/
inductive EGLChooseError where
  | formatUnavailableStereo
  | apiUnavailableNoConfigs
  | apiUnavailableOpenGLES1
  | apiUnavailableOpenGLES2
  | apiUnavailableOpenGL
  | formatUnavailableNoMatch
  deriving Repr, DecidableEq

/-- The api-unavailable error naming the requested API family and version
(egl_context.c lines 208-227). -/
def apiUnavailableErrorFor (client : ClientAPI) (major : Nat) : EGLChooseError :=
  match client with
  | ClientAPI.openGLES =>
    if major = 1 then EGLChooseError.apiUnavailableOpenGLES1
    else EGLChooseError.apiUnavailableOpenGLES2
  | _ => EGLChooseError.apiUnavailableOpenGL

/-- Embedding of `chooseEGLConfig` (egl_context.c lines 88-240): reject
stereo outright, fail if the driver reports no configs, filter the enumerated
configs, run the closest-match chooser on the survivors, and on failure
report api-unavailable (naming the requested API and version) when a config
was discarded solely for the wrong renderable-API bit, else
format-unavailable.  On success the chosen config's handle is returned. -/
def chooseEGLConfig (platform : PlatformID) (extPresentOpaque : Bool)
    (client : ClientAPI) (major : Nat) (fb : FBConfig)
    (nativeConfigs : List NativeEGLConfig) : Except EGLChooseError Nat :=
  let apiBit := eglAPIBit client major
  if fb.stereo then
    Except.error EGLChooseError.formatUnavailableStereo
  else if nativeConfigs.length = 0 then
    Except.error EGLChooseError.apiUnavailableNoConfigs
  else
    let collected := collectUsable platform extPresentOpaque fb apiBit nativeConfigs
    match glfwChooseFBConfig fb collected.1 with
    | some closest => Except.ok closest.handle
    | none =>
      if collected.2 then
        Except.error (apiUnavailableErrorFor client major)
      else
        Except.error EGLChooseError.formatUnavailableNoMatch

/-! ## Selection requests served as owner (loader.c lines 838-983) -/

/-- The X `None` atom (value 0). -/
def atomNone : Nat := 0

/-- The predefined `XA_STRING` atom (value 31 in Xatom.h). -/
def xaString : Nat := 31

/-- The runtime-interned atoms consulted by the selection-request handler. -/
structure X11Atoms where
  TARGETS : Nat
  MULTIPLE : Nat
  SAVE_TARGETS : Nat
  UTF8_STRING : Nat
  ATOM_PAIR : Nat
  PRIMARY : Nat
  CLIPBOARD : Nat
  deriving Repr, DecidableEq

/-- An incoming `XSelectionRequestEvent`, with the contents of the
requestor's property for a MULTIPLE request. -/
structure SelectionRequest where
  selection : Nat
  requestor : Nat
  property : Nat
  target : Nat
  time : Nat
  multipleTargets : List (Nat × Nat)
  deriving Repr, DecidableEq

/-- Embedding of `writeTargetToProperty` (loader.c lines 838-968), restricted
to the returned atom, which becomes the reply's property field (the
`XChangeProperty` data transfers themselves are side effects on the
requestor's window and do not influence the reply): a legacy request with no
destination property is rejected; TARGETS, MULTIPLE and SAVE_TARGETS requests
succeed with the requested property; a data conversion succeeds for the
UTF8_STRING and XA_STRING formats and is rejected for every other target. -/
def writeTargetToProperty (A : X11Atoms) (req : SelectionRequest) : Nat :=
  if req.property = atomNone then atomNone
  else if req.target = A.TARGETS then req.property
  else if req.target = A.MULTIPLE then req.property
  else if req.target = A.SAVE_TARGETS then req.property
  else if req.target = A.UTF8_STRING then req.property
  else if req.target = xaString then req.property
  else atomNone

/-- The `SelectionNotify` reply event assembled by
`handleSelectionRequest`. -/
structure SelectionReply where
  requestor : Nat
  selection : Nat
  target : Nat
  time : Nat
  property : Nat
  deriving Repr, DecidableEq

/-- Embedding of `handleSelectionRequest` (loader.c lines 970-983): the list
of events sent with `XSendEvent`, always exactly one `SelectionNotify` reply
to the requestor whose property field is the result of
`writeTargetToProperty`. -/
def handleSelectionRequest (A : X11Atoms) (req : SelectionRequest) :
    List SelectionReply :=
  [{ requestor := req.requestor, selection := req.selection,
     target := req.target, time := req.time,
     property := writeTargetToProperty A req }]

/-- The targets supported by the selection-request handler. -/
def supportedSelectionTarget (A : X11Atoms) (t : Nat) : Prop :=
  t = A.TARGETS ∨ t = A.MULTIPLE ∨ t = A.SAVE_TARGETS ∨
    t = A.UTF8_STRING ∨ t = xaString

instance (A : X11Atoms) (t : Nat) :
    Decidable (supportedSelectionTarget A t) := by
  unfold supportedSelectionTarget
  infer_instance

/-! ## Drag-and-drop sessions (loader.c lines 103, 1620-1694) -/

/-- `_GLFW_XDND_VERSION`: the highest Xdnd protocol version this
implementation speaks. -/
def glfwXdndVersion : Nat := 5

/-- The transient drag-and-drop session fields (`_glfw.x11.xdnd`): source
window, protocol version from the enter message, and the negotiated data
format (`atomNone` when none was negotiated). -/
structure XdndSession where
  source : Nat
  version : Nat
  format : Nat
  deriving Repr, DecidableEq

/-- Embedding of the `XdndEnter` branch of `processEvent` (loader.c lines
1620-1658): cache the source window and protocol version (extracted from the
message by the caller) and reset the format, bail out on versions newer than
the supported one, then scan the advertised format list (inline or from the
type-list property) for the supported URI-list type. -/
def handleXdndEnter (uriListAtom sourceWindow version : Nat)
    (formats : List Nat) (_st : XdndSession) : XdndSession :=
  let st1 : XdndSession :=
    { source := sourceWindow, version := version, format := atomNone }
  if st1.version > glfwXdndVersion then
    st1
  else if uriListAtom ∈ formats then
    { st1 with format := uriListAtom }
  else
    st1

/-- What the `XdndDrop` branch does: request conversion of the drop selection
to the negotiated format, immediately reply finished-with-rejection to the
source, or ignore the message. -/
inductive XdndDropAction where
  | convertRequested (format time : Nat)
  | finishedRejected (source : Nat)
  | ignored
  deriving Repr, DecidableEq

/-- Embedding of the `XdndDrop` branch of `processEvent` (loader.c lines
1659-1694): bail out on versions newer than the supported one; when a format
was negotiated, request conversion of the drop selection (with the event's
timestamp for version ≥ 1, else `CurrentTime` = 0); when no format was
negotiated and the version is ≥ 2, immediately send a finished-with-rejection
reply to the source. -/
def handleXdndDrop (eventTime : Nat) (st : XdndSession) : XdndDropAction :=
  if st.version > glfwXdndVersion then
    XdndDropAction.ignored
  else if st.format ≠ atomNone then
    XdndDropAction.convertRequested st.format
      (if 1 ≤ st.version then eventTime else 0)
  else if 2 ≤ st.version then
    XdndDropAction.finishedRejected st.source
  else
    XdndDropAction.ignored

/-! ## Monitor acquisition and the screen saver (loader.c lines 1130-1188) -/

/-- The state read and written by `acquireMonitor` and `releaseMonitor`:
the screen-saver disable count (`_glfw.x11.saver.count`, a C int), the
window attached to each monitor (`monitor->window`), and two instrumentation
counters recording how many times the screen saver was disabled
(`XSetScreenSaver(display, 0, ...)` after saving the old settings) and
restored (`XSetScreenSaver` with the saved settings). -/
structure SaverState where
  count : Int
  attached : Nat → Option Nat
  disables : Nat
  restores : Nat

/-- The state at platform initialization: zero count, no window on any
monitor. -/
def initialSaverState : SaverState :=
  { count := 0, attached := fun _ => none, disables := 0, restores := 0 }

/-- Embedding of `acquireMonitor` (loader.c lines 1130-1165) for window `w`
on monitor `m`: on a zero count, save and disable the screen saver; increment
the count only when the monitor had no window attached; finally attach the
window to the monitor (`_glfwInputMonitorWindow(window->monitor, window)`). -/
def acquireMonitor (w m : Nat) (s : SaverState) : SaverState :=
  let s1 : SaverState :=
    if s.count = 0 then { s with disables := s.disables + 1 } else s
  let s2 : SaverState :=
    if s1.attached m = none then { s1 with count := s1.count + 1 } else s1
  { s2 with attached := (fun m2 => if m2 = m then some w else s2.attached m2) }

/-- Embedding of `releaseMonitor` (loader.c lines 1169-1188) for window `w`
on monitor `m`: a no-op unless `w` is the window attached to the monitor;
otherwise detach it, decrement the count, and restore the saved screen-saver
settings when the count returns to zero. -/
def releaseMonitor (w m : Nat) (s : SaverState) : SaverState :=
  if s.attached m ≠ some w then
    s
  else
    let s1 : SaverState :=
      { s with
        attached := (fun m2 => if m2 = m then none else s.attached m2),
        count := s.count - 1 }
    if s1.count = 0 then { s1 with restores := s1.restores + 1 } else s1

/-- Run `acquireMonitor` for each (window, monitor) pair in order. -/
def acquireAll (ps : List (Nat × Nat)) (s : SaverState) : SaverState :=
  ps.foldl (fun s p => acquireMonitor p.1 p.2 s) s

/-- Run `releaseMonitor` for each (window, monitor) pair in order. -/
def releaseAll (ps : List (Nat × Nat)) (s : SaverState) : SaverState :=
  ps.foldl (fun s p => releaseMonitor p.1 p.2 s) s

/-! ## Theorems -/

/-- Claim C9: installing a complete open/close/resolve triplet replaces the
current module loader; installing a null loader restores the default platform
loader (all dispatch falls back to the platform functions); installing a
partial triplet reports InvalidValue and leaves the installed loader
unchanged. -/
theorem glfwInitModuleLoader_spec :
    (∀ (l state : GLFWmoduleloader),
      l.openFn.isSome → l.closeFn.isSome → l.resolveFn.isSome →
      glfwInitModuleLoader (some l) state = (l, none)) ∧
    (∀ state : GLFWmoduleloader,
      glfwInitModuleLoader none state = (zeroModuleLoader, none) ∧
      glfwModuleLoaderOpen zeroModuleLoader = ModuleDispatch.platform ∧
      glfwModuleLoaderClose zeroModuleLoader = ModuleDispatch.platform ∧
      glfwModuleLoaderResolve zeroModuleLoader = ModuleDispatch.platform) ∧
    (∀ (l state : GLFWmoduleloader),
      ¬(l.openFn.isSome ∧ l.closeFn.isSome ∧ l.resolveFn.isSome) →
      glfwInitModuleLoader (some l) state =
        (state, some GLFWerror.invalidValue)) := by
  refine ⟨?_, ?_, ?_⟩
  · intro l state ho hc hr
    simp [glfwInitModuleLoader, ho, hc, hr]
  · intro state
    exact ⟨rfl, rfl, rfl, rfl⟩
  · intro l state h
    simp only [glfwInitModuleLoader, if_neg h]

/-- Witness for `glfwInitModuleLoader_spec` at concrete loaders: a complete
triplet is installed, a null install resets, and a partial triplet is rejected
without changing the state. -/
theorem glfwInitModuleLoader_spec_witness :
    glfwInitModuleLoader
        (some { openFn := some 1, closeFn := some 2, resolveFn := some 3, user := 4 })
        zeroModuleLoader =
      ({ openFn := some 1, closeFn := some 2, resolveFn := some 3, user := 4 }, none) ∧
    glfwInitModuleLoader
        (some { openFn := some 1, closeFn := none, resolveFn := some 3, user := 4 })
        { openFn := some 7, closeFn := some 8, resolveFn := some 9, user := 0 } =
      ({ openFn := some 7, closeFn := some 8, resolveFn := some 9, user := 0 },
        some GLFWerror.invalidValue) := by
  constructor
  · exact glfwInitModuleLoader_spec.1
      { openFn := some 1, closeFn := some 2, resolveFn := some 3, user := 4 }
      zeroModuleLoader rfl rfl rfl
  · exact glfwInitModuleLoader_spec.2.2
      { openFn := some 1, closeFn := none, resolveFn := some 3, user := 4 }
      { openFn := some 7, closeFn := some 8, resolveFn := some 9, user := 0 }
      (by decide)

/-- Claim C8: when the native connection still depends on symbols from the
loaded client library (X11 platform with a desktop OpenGL context), destroying
the EGL context never frees that library and leaves its handle intact; in
every other configuration the handle, when present, is freed during context
destruction. -/
theorem destroyContextEGL_client_library :
    (∀ (p : PlatformID) (c : ClientAPI) (ctx : EGLContextState),
      connectionDependsOnClientLib p c →
      (destroyContextEGL p c ctx).2 = false ∧
      (destroyContextEGL p c ctx).1.client = ctx.client) ∧
    (∀ (p : PlatformID) (c : ClientAPI) (ctx : EGLContextState) (h : Nat),
      ¬connectionDependsOnClientLib p c →
      ctx.client = some h →
      (destroyContextEGL p c ctx).2 = true ∧
      (destroyContextEGL p c ctx).1.client = none) := by
  constructor
  · intro p c ctx hdep
    obtain ⟨hp, hc⟩ := hdep
    subst hp; subst hc
    have hcond : ¬(PlatformID.x11 ≠ PlatformID.x11 ∨
        ClientAPI.openGL ≠ ClientAPI.openGL) := by simp
    constructor
    · simp [destroyContextEGL, hcond]
    · simp only [destroyContextEGL, if_neg hcond]
      cases hs : ctx.surface <;> cases hh : ctx.handle <;> simp [hs, hh]
  · intro p c ctx h hdep hclient
    have hcond : p ≠ PlatformID.x11 ∨ c ≠ ClientAPI.openGL := by
      by_contra hcon
      push_neg at hcon
      exact hdep ⟨hcon.1, hcon.2⟩
    constructor
    · simp [destroyContextEGL, if_pos hcond, hclient]
    · simp only [destroyContextEGL, if_pos hcond, hclient]
      cases hs : ctx.surface <;> cases hh : ctx.handle <;> simp [hs, hh]

/-- Witness for `destroyContextEGL_client_library`: on X11 with a desktop GL
context the client library survives destruction; on Wayland it is freed. -/
theorem destroyContextEGL_client_library_witness :
    (destroyContextEGL PlatformID.x11 ClientAPI.openGL
        { client := some 5, surface := some 6, handle := some 7 }).2 = false ∧
    (destroyContextEGL PlatformID.x11 ClientAPI.openGL
        { client := some 5, surface := some 6, handle := some 7 }).1.client = some 5 ∧
    (destroyContextEGL PlatformID.wayland ClientAPI.openGL
        { client := some 5, surface := some 6, handle := some 7 }).2 = true := by
  refine ⟨?_, ?_, ?_⟩
  · exact (destroyContextEGL_client_library.1 PlatformID.x11 ClientAPI.openGL
      { client := some 5, surface := some 6, handle := some 7 } ⟨rfl, rfl⟩).1
  · have := (destroyContextEGL_client_library.1 PlatformID.x11 ClientAPI.openGL
      { client := some 5, surface := some 6, handle := some 7 } ⟨rfl, rfl⟩).2
    simpa using this
  · exact (destroyContextEGL_client_library.2 PlatformID.wayland ClientAPI.openGL
      { client := some 5, surface := some 6, handle := some 7 } 5
      (by decide) rfl).1

/-- Claim C5: setting the clipboard string and reading it back while this
process still owns the CLIPBOARD selection returns the identical byte
sequence, via the cached-string fast path, with no selection-conversion round
trip to the server. -/
theorem clipboard_roundtrip (s : ByteString) (st : X11SelectionState)
    (_hOwned : (glfwSetClipboardStringX11 s st).clipboardOwnedByHelper = true) :
    glfwGetClipboardStringX11 (glfwSetClipboardStringX11 s st) =
      { value := some s, roundTrip := false } := by
  simp [glfwGetClipboardStringX11, glfwSetClipboardStringX11]

/-- Witness for `clipboard_roundtrip` at a concrete string and state. -/
theorem clipboard_roundtrip_witness :
    glfwGetClipboardStringX11
        (glfwSetClipboardStringX11 [104, 105]
          { clipboardString := none, primarySelectionString := none,
            clipboardOwnedByHelper := false }) =
      { value := some [104, 105], roundTrip := false } :=
  clipboard_roundtrip [104, 105]
    { clipboardString := none, primarySelectionString := none,
      clipboardOwnedByHelper := false } rfl

/-- `strcat` copies a NUL-free chunk in full. -/
theorem cstrBytes_of_no_nul (c : ByteString) (h : ∀ b ∈ c, b ≠ 0) :
    cstrBytes c = c := by
  induction c with
  | nil => rfl
  | cons b t ih =>
    have hb : b ≠ 0 := h b (List.mem_cons_self b t)
    have ht : ∀ x ∈ t, x ≠ 0 := fun x hx => h x (List.mem_cons_of_mem b hx)
    unfold cstrBytes at ih ⊢
    rw [List.takeWhile_cons]
    have hdec : decide (b ≠ 0) = true := by simp [hb]
    rw [if_pos hdec]
    rw [ih ht]

/-- Completing an INCR transfer whose chunk list is a non-empty run of
non-empty NUL-free chunks followed by the terminating empty chunk yields the
accumulated buffer extended by the concatenation of the chunks. -/
theorem incrAccumulate_complete (chunks : List ByteString)
    (acc : Option ByteString) (hne : chunks ≠ [])
    (hchunks : ∀ c ∈ chunks, c ≠ [] ∧ ∀ b ∈ c, b ≠ 0) :
    incrAccumulate acc (chunks ++ [[]]) =
      some (acc.getD [] ++ chunks.flatten) := by
  induction chunks generalizing acc with
  | nil => exact absurd rfl hne
  | cons c rest ih =>
    obtain ⟨hc_ne, hc_nul⟩ := hchunks c (List.mem_cons_self c rest)
    have hlen : c.length ≠ 0 := by
      cases c with
      | nil => exact absurd rfl hc_ne
      | cons _ _ => simp
    rw [List.cons_append]
    rw [show incrAccumulate acc (c :: (rest ++ [[]])) =
        incrAccumulate (some (acc.getD [] ++ cstrBytes c)) (rest ++ [[]]) by
      rw [incrAccumulate, if_pos hlen]]
    rw [cstrBytes_of_no_nul c hc_nul]
    cases rest with
    | nil =>
      rw [show incrAccumulate (some (acc.getD [] ++ c)) ([] ++ [[]]) =
          some (acc.getD [] ++ c) by rfl]
      simp
    | cons r rs =>
      rw [ih (some (acc.getD [] ++ c)) (by simp)
        (fun x hx => hchunks x (List.mem_cons_of_mem c hx))]
      simp [List.append_assoc]

/-- Claim C2: an INCR transfer of N non-empty chunks followed by an empty
chunk reconstructs exactly the concatenation of the chunks in arrival order,
and for the legacy 8-bit string target the Latin-1-to-UTF-8 decoding is
applied exactly once to the whole concatenation, after the terminating empty
chunk, never to the individual chunks. -/
theorem getSelectionStringINCR_reconstruction (isLegacyTarget : Bool)
    (chunks : List ByteString) (hne : chunks ≠ [])
    (hchunks : ∀ c ∈ chunks, c ≠ [] ∧ ∀ b ∈ c, b ≠ 0) :
    getSelectionStringINCR isLegacyTarget (chunks ++ [[]]) =
      some (if isLegacyTarget then convertLatin1toUTF8 chunks.flatten
            else chunks.flatten) := by
  unfold getSelectionStringINCR
  rw [incrAccumulate_complete chunks none hne hchunks]
  simp

/-- Witness for `getSelectionStringINCR_reconstruction`: two chunks under the
legacy target decode once as a whole after reconstruction. -/
theorem getSelectionStringINCR_reconstruction_witness :
    getSelectionStringINCR true [[104, 200], [33], []] =
      some [104, 195, 136, 33] := by
  have h := getSelectionStringINCR_reconstruction true [[104, 200], [33]]
    (by decide) (by decide)
  simpa [convertLatin1toUTF8, encodeUTF8Latin1] using h

/-- Claim C3: with detectable auto-repeat unavailable, a key release whose
next queued event is a press of the same scancode on the same window within
20 ms is not delivered as a logical release, while a release not followed by
such a press is delivered. -/
theorem keyRelease_repeat_suppression :
    (∀ (w kc t tp : Nat) (rest : List QueuedEvent),
      t ≤ tp → tp < t + 20 → tp < 2 ^ 64 →
      keyReleaseDelivered false w kc t
        (QueuedEvent.keyPress w kc tp :: rest) = false) ∧
    (∀ (w kc t : Nat) (queue : List QueuedEvent),
      t < 2 ^ 32 →
      (∀ (w2 kc2 t2 : Nat) (rest : List QueuedEvent),
        queue = QueuedEvent.keyPress w2 kc2 t2 :: rest → t2 < 2 ^ 32) →
      ¬ isRepeatPressHead w kc t queue →
      keyReleaseDelivered false w kc t queue = true) := by
  constructor
  · intro w kc t tp rest h1 h2 h3
    have hsub : timeSub64 tp t = tp - t := by
      unfold timeSub64
      have ht : t % 2 ^ 64 = t := Nat.mod_eq_of_lt (by omega)
      rw [ht]
      omega
    have hcond : w = w ∧ kc = kc ∧ timeSub64 tp t < 20 :=
      ⟨rfl, rfl, by rw [hsub]; omega⟩
    simp [keyReleaseDelivered, hcond]
  · intro w kc t queue ht hbound hnrep
    cases queue with
    | nil => rfl
    | cons next rest =>
      cases next with
      | other => rfl
      | keyPress w2 kc2 t2 =>
        have ht2 : t2 < 2 ^ 32 := hbound w2 kc2 t2 rest rfl
        by_cases hcond : w2 = w ∧ kc2 = kc ∧ timeSub64 t2 t < 20
        · exfalso
          obtain ⟨hw, hkc, hdiff⟩ := hcond
          subst hw
          subst hkc
          apply hnrep
          unfold timeSub64 at hdiff
          have htm : t % 2 ^ 64 = t := Nat.mod_eq_of_lt (by omega)
          rw [htm] at hdiff
          exact ⟨t2, rest, rfl, by omega, by omega⟩
        · simp [keyReleaseDelivered, hcond]

/-- Witness for `keyRelease_repeat_suppression`: a release at time 1000 with a
queued press of the same key at 1010 is suppressed; with the press at 1200 it
is delivered. -/
theorem keyRelease_repeat_suppression_witness :
    keyReleaseDelivered false 3 42 1000
        [QueuedEvent.keyPress 3 42 1010] = false ∧
    keyReleaseDelivered false 3 42 1000
        [QueuedEvent.keyPress 3 42 1200] = true := by
  constructor
  · exact keyRelease_repeat_suppression.1 3 42 1000 1010 [] (by decide)
      (by decide) (by norm_num)
  · refine keyRelease_repeat_suppression.2 3 42 1000
      [QueuedEvent.keyPress 3 42 1200] (by norm_num)
      (fun w2 kc2 t2 rest h => by
        cases h
        norm_num) ?_
    rintro ⟨tpr, rest, hq, hle, hlt⟩
    cases hq
    omega

/-- Unfolding of `processKeyPressIM` as a single conditional. -/
theorem processKeyPressIM_eq (time keycode : Nat) (stored : Nat → Nat) :
    processKeyPressIM time keycode stored =
      if timeSub64 time (stored keycode) = time ∨
          (0 < timeSub64 time (stored keycode) ∧
            timeSub64 time (stored keycode) < 2 ^ 31) then
        (decide (keycode ≠ 0), fun k => if k = keycode then time else stored k)
      else
        (false, stored) := rfl

/-- Counterexample to the literal claim C4: with an empty timestamp table, a
first press of keycode 1 at time `2 ^ 31` is delivered even though the
timestamp difference (`2 ^ 31`) is not below `2 ^ 31` — the comparison also
lets a press through whenever the stored timestamp is zero. -/
theorem processKeyPressIM_counterexample :
    (processKeyPressIM (2 ^ 31) 1 (fun _ => 0)).1 = true ∧
    ¬(0 < timeSub64 (2 ^ 31) ((fun _ => 0) 1) ∧
        timeSub64 (2 ^ 31) ((fun _ => 0) 1) < 2 ^ 31) := by
  constructor
  · rw [processKeyPressIM_eq]
    have hd : timeSub64 (2 ^ 31) ((fun _ => 0 : Nat → Nat) 1) = 2 ^ 31 := by
      unfold timeSub64
      norm_num
    rw [if_pos (Or.inl hd)]
    decide
  · intro h
    have hd : timeSub64 (2 ^ 31) ((fun _ => 0 : Nat → Nat) 1) = 2 ^ 31 := by
      unfold timeSub64
      norm_num
    rw [hd] at h
    exact absurd h.2 (by norm_num)

/-- Claim C4 (amended): for a window with an input-method context, (1) two
presses of the same nonzero keycode carrying the same nonzero timestamp yield
exactly one delivered press, with the table updated only by the first; (2) a
press is delivered only when the stored timestamp for the key is zero (first
press) or the wrapped difference is nonzero and below `2 ^ 31`; (3) the
stored-timestamp table changes only when the press is delivered. -/
theorem processKeyPressIM_dedup :
    (∀ (t kc : Nat) (stored : Nat → Nat),
      kc ≠ 0 → t ≠ 0 → t < 2 ^ 64 → stored kc = 0 →
      (processKeyPressIM t kc stored).1 = true ∧
      (processKeyPressIM t kc (processKeyPressIM t kc stored).2).1 = false ∧
      (processKeyPressIM t kc (processKeyPressIM t kc stored).2).2 =
        (processKeyPressIM t kc stored).2) ∧
    (∀ (t kc : Nat) (stored : Nat → Nat),
      t < 2 ^ 64 → stored kc < 2 ^ 64 →
      (processKeyPressIM t kc stored).1 = true →
      stored kc = 0 ∨
        (0 < timeSub64 t (stored kc) ∧ timeSub64 t (stored kc) < 2 ^ 31)) ∧
    (∀ (t kc : Nat) (stored : Nat → Nat),
      kc ≠ 0 →
      (processKeyPressIM t kc stored).2 ≠ stored →
      (processKeyPressIM t kc stored).1 = true) := by
  refine ⟨?_, ?_, ?_⟩
  · intro t kc stored hkc ht0 ht64 hstored
    have hdiff1 : timeSub64 t (stored kc) = t := by
      unfold timeSub64
      rw [hstored]
      omega
    have h1 : processKeyPressIM t kc stored =
        (true, fun k => if k = kc then t else stored k) := by
      rw [processKeyPressIM_eq, if_pos (Or.inl hdiff1)]
      simp [hkc]
    have hupd : ((fun k => if k = kc then t else stored k) : Nat → Nat) kc = t := by
      simp
    have hdiff2 : timeSub64 t t = 0 := by
      unfold timeSub64
      omega
    have h2 : processKeyPressIM t kc (fun k => if k = kc then t else stored k) =
        (false, fun k => if k = kc then t else stored k) := by
      rw [processKeyPressIM_eq]
      have hkk : (if kc = kc then t else stored kc) = t := if_pos rfl
      rw [hkk, hdiff2]
      rw [if_neg ?_]
      intro hc
      rcases hc with hc | hc
      · exact ht0 hc.symm
      · exact absurd hc.1 (by omega)
    rw [h1]
    rw [h2]
    exact ⟨rfl, rfl, rfl⟩
  · intro t kc stored ht64 hst64 hdel
    rw [processKeyPressIM_eq] at hdel
    by_cases hc : timeSub64 t (stored kc) = t ∨
        (0 < timeSub64 t (stored kc) ∧ timeSub64 t (stored kc) < 2 ^ 31)
    · rcases hc with hc | hc
      · left
        unfold timeSub64 at hc
        have hs : stored kc % 2 ^ 64 = stored kc := Nat.mod_eq_of_lt hst64
        rw [hs] at hc
        omega
      · exact Or.inr hc
    · rw [if_neg hc] at hdel
      exact absurd hdel (by simp)
  · intro t kc stored hkc hchanged
    rw [processKeyPressIM_eq] at hchanged ⊢
    by_cases hc : timeSub64 t (stored kc) = t ∨
        (0 < timeSub64 t (stored kc) ∧ timeSub64 t (stored kc) < 2 ^ 31)
    · rw [if_pos hc]
      simp [hkc]
    · rw [if_neg hc] at hchanged
      exact absurd rfl hchanged

/-- Witness for `processKeyPressIM_dedup`: two presses of keycode 9 at time 5
on a fresh table deliver exactly once, and an unchanged table at a stale
timestamp implies no delivery. -/
theorem processKeyPressIM_dedup_witness :
    (processKeyPressIM 5 9 (fun _ => 0)).1 = true ∧
    (processKeyPressIM 5 9 (processKeyPressIM 5 9 (fun _ => 0)).2).1 = false := by
  have h := processKeyPressIM_dedup.1 5 9 (fun _ => 0) (by decide) (by decide)
    (by norm_num) rfl
  exact ⟨h.1, h.2.1⟩

/-- Claim C10: while owning a selection, every incoming selection request is
answered with exactly one SelectionNotify reply to the requestor; the reply
property is None exactly when the request had no destination property (legacy
client) or an unsupported target, and otherwise equals the requested
property. -/
theorem handleSelectionRequest_reply (A : X11Atoms) (req : SelectionRequest) :
    (handleSelectionRequest A req).length = 1 ∧
    ∀ r ∈ handleSelectionRequest A req,
      r.requestor = req.requestor ∧
      (r.property = atomNone ↔
        req.property = atomNone ∨ ¬supportedSelectionTarget A req.target) ∧
      (r.property ≠ atomNone → r.property = req.property) := by
  refine ⟨rfl, ?_⟩
  intro r hr
  simp only [handleSelectionRequest, List.mem_singleton] at hr
  subst hr
  refine ⟨rfl, ?_, ?_⟩
  · simp only [writeTargetToProperty, supportedSelectionTarget]
    split_ifs with h1 h2 h3 h4 h5 h6 <;> simp_all
  · intro hne
    simp only [writeTargetToProperty] at hne ⊢
    split_ifs at hne ⊢ <;> first | rfl | exact absurd rfl hne

/-- Witness for `handleSelectionRequest_reply`: a UTF8_STRING conversion
request with a destination property is answered with that property. -/
theorem handleSelectionRequest_reply_witness :
    (handleSelectionRequest
        { TARGETS := 101, MULTIPLE := 102, SAVE_TARGETS := 103,
          UTF8_STRING := 104, ATOM_PAIR := 106, PRIMARY := 111,
          CLIPBOARD := 112 }
        { selection := 112, requestor := 7, property := 5, target := 104,
          time := 9, multipleTargets := [] }).length = 1 ∧
    ∀ r ∈ handleSelectionRequest
        { TARGETS := 101, MULTIPLE := 102, SAVE_TARGETS := 103,
          UTF8_STRING := 104, ATOM_PAIR := 106, PRIMARY := 111,
          CLIPBOARD := 112 }
        { selection := 112, requestor := 7, property := 5, target := 104,
          time := 9, multipleTargets := [] },
      r.requestor = 7 ∧ r.property = 5 := by
  have h := handleSelectionRequest_reply
    { TARGETS := 101, MULTIPLE := 102, SAVE_TARGETS := 103,
      UTF8_STRING := 104, ATOM_PAIR := 106, PRIMARY := 111, CLIPBOARD := 112 }
    { selection := 112, requestor := 7, property := 5, target := 104,
      time := 9, multipleTargets := [] }
  refine ⟨h.1, ?_⟩
  intro r hr
  have h2 := h.2 r hr
  have hsup : supportedSelectionTarget
      { TARGETS := 101, MULTIPLE := 102, SAVE_TARGETS := 103,
        UTF8_STRING := 104, ATOM_PAIR := 106, PRIMARY := 111,
        CLIPBOARD := 112 } 104 := by
    right; right; right; left; rfl
  have hne : r.property ≠ atomNone := by
    intro h0
    rcases h2.2.1.mp h0 with h5 | hns
    · exact absurd h5 (by decide)
    · exact hns hsup
  exact ⟨h2.1, h2.2.2 hne⟩

/-- Counterexample to the literal claim C6: an Xdnd enter at protocol version
6 (newer than the supported version 5) advertising no URI-list format leaves
the format unset, and the subsequent drop — at protocol version ≥ 2 — is
ignored without any finished-with-rejection reply being sent. -/
theorem xdndDrop_version6_counterexample :
    (handleXdndEnter 7 42 6 [8, 9]
        { source := 0, version := 0, format := 0 }).format = atomNone ∧
    2 ≤ (handleXdndEnter 7 42 6 [8, 9]
        { source := 0, version := 0, format := 0 }).version ∧
    handleXdndDrop 0 (handleXdndEnter 7 42 6 [8, 9]
        { source := 0, version := 0, format := 0 }) =
      XdndDropAction.ignored ∧
    handleXdndDrop 0 (handleXdndEnter 7 42 6 [8, 9]
        { source := 0, version := 0, format := 0 }) ≠
      XdndDropAction.finishedRejected 42 := by
  decide

/-- Claim C6 (amended): an Xdnd enter whose format list does not include the
supported URI-list type negotiates no format, and a subsequent drop at a
protocol version between 2 and 5 (the highest version this implementation
speaks; newer versions are ignored entirely) immediately replies
finished-with-rejection to the source without issuing any
selection-conversion request. -/
theorem xdnd_no_format_negotiation (uriList srcW version eventTime : Nat)
    (formats : List Nat) (st : XdndSession) (hnot : uriList ∉ formats) :
    (handleXdndEnter uriList srcW version formats st).format = atomNone ∧
    (2 ≤ version → version ≤ glfwXdndVersion →
      handleXdndDrop eventTime (handleXdndEnter uriList srcW version formats st) =
        XdndDropAction.finishedRejected srcW) := by
  have henter : handleXdndEnter uriList srcW version formats st =
      { source := srcW, version := version, format := atomNone } := by
    simp only [handleXdndEnter]
    split_ifs with h1
    · rfl
    · rfl
  constructor
  · rw [henter]
  · intro h2 h5
    rw [henter]
    simp only [handleXdndDrop]
    rw [if_neg (by simp only [glfwXdndVersion] at h5 ⊢; omega)]
    rw [if_neg (by simp)]
    rw [if_pos h2]

/-- Witness for `xdnd_no_format_negotiation`: a version-3 session whose
format list lacks the URI-list atom ends in a rejection reply on drop. -/
theorem xdnd_no_format_negotiation_witness :
    (handleXdndEnter 7 42 3 [8, 9]
        { source := 0, version := 0, format := 0 }).format = atomNone ∧
    handleXdndDrop 0 (handleXdndEnter 7 42 3 [8, 9]
        { source := 0, version := 0, format := 0 }) =
      XdndDropAction.finishedRejected 42 := by
  have h := xdnd_no_format_negotiation 7 42 3 0 [8, 9]
    { source := 0, version := 0, format := 0 } (by decide)
  exact ⟨h.1, h.2 (by decide) (by decide)⟩

/-- The `wrongApiAvailable` flag is set exactly when some enumerated config
was discarded solely by the renderable-API check. -/
theorem collectUsable_wrongAPI_iff (platform : PlatformID)
    (extPresentOpaque : Bool) (fb : FBConfig) (apiBit : Nat)
    (l : List NativeEGLConfig) :
    (collectUsable platform extPresentOpaque fb apiBit l).2 = true ↔
      ∃ n ∈ l, filterEGLConfig platform extPresentOpaque fb apiBit n =
        ConfigFilterResult.wrongAPI := by
  induction l with
  | nil => simp [collectUsable]
  | cons n rest ih =>
    simp only [collectUsable]
    cases hf : filterEGLConfig platform extPresentOpaque fb apiBit n with
    | skipped => simp [hf, ih]
    | wrongAPI => simp [hf]
    | usable u => simp [hf, ih]

/-- Claim C1: with stereo not requested and at least one config enumerated,
if the closest-match step leaves no surviving candidate then `chooseEGLConfig`
fails, reporting the api-unavailable error naming the requested API family
and version when some enumerated config was discarded solely for the wrong
renderable-API bit, and the format-unavailable error otherwise. -/
theorem chooseEGLConfig_no_candidate (platform : PlatformID)
    (extPresentOpaque : Bool) (client : ClientAPI) (major : Nat)
    (fb : FBConfig) (configs : List NativeEGLConfig)
    (hstereo : fb.stereo = false) (hne : configs ≠ [])
    (hnone : glfwChooseFBConfig fb
      (collectUsable platform extPresentOpaque fb
        (eglAPIBit client major) configs).1 = none) :
    chooseEGLConfig platform extPresentOpaque client major fb configs =
      Except.error
        (if ∃ n ∈ configs, filterEGLConfig platform extPresentOpaque fb
              (eglAPIBit client major) n = ConfigFilterResult.wrongAPI then
          apiUnavailableErrorFor client major
        else
          EGLChooseError.formatUnavailableNoMatch) := by
  have hlen : ¬(configs.length = 0) := by
    cases configs with
    | nil => exact absurd rfl hne
    | cons a l => simp
  simp only [chooseEGLConfig]
  rw [if_neg (by simp [hstereo]), if_neg hlen]
  rw [hnone]
  by_cases hw : ∃ n ∈ configs, filterEGLConfig platform extPresentOpaque fb
      (eglAPIBit client major) n = ConfigFilterResult.wrongAPI
  · rw [if_pos hw]
    have hflag : (collectUsable platform extPresentOpaque fb
        (eglAPIBit client major) configs).2 = true :=
      (collectUsable_wrongAPI_iff platform extPresentOpaque fb
        (eglAPIBit client major) configs).mpr hw
    simp [hflag]
  · rw [if_neg hw]
    have hflag : (collectUsable platform extPresentOpaque fb
        (eglAPIBit client major) configs).2 = false := by
      cases hb : (collectUsable platform extPresentOpaque fb
          (eglAPIBit client major) configs).2 with
      | false => rfl
      | true =>
        exact absurd ((collectUsable_wrongAPI_iff platform extPresentOpaque fb
          (eglAPIBit client major) configs).mp hb) hw
    simp [hflag]

/-- Witness for `chooseEGLConfig_no_candidate`: an OpenGL ES 2 request over a
single desktop-GL-only config fails with the error naming OpenGL ES 2. -/
theorem chooseEGLConfig_no_candidate_witness :
    chooseEGLConfig PlatformID.x11 false ClientAPI.openGLES 2
        { redBits := 8, greenBits := 8, blueBits := 8, alphaBits := 8,
          depthBits := 24, stencilBits := 8, samples := 0, stereo := false,
          doublebuffer := true, transparent := false }
        [{ colorBufferType := 12430, surfaceType := 4, nativeVisualID := 33,
           renderableType := 8, redBits := 8, greenBits := 8, blueBits := 8,
           alphaBits := 8, depthBits := 24, stencilBits := 8, samples := 0,
           visualTransparent := false, handle := 77 }] =
      Except.error EGLChooseError.apiUnavailableOpenGLES2 := by
  have h := chooseEGLConfig_no_candidate PlatformID.x11 false
    ClientAPI.openGLES 2
    { redBits := 8, greenBits := 8, blueBits := 8, alphaBits := 8,
      depthBits := 24, stencilBits := 8, samples := 0, stereo := false,
      doublebuffer := true, transparent := false }
    [{ colorBufferType := 12430, surfaceType := 4, nativeVisualID := 33,
       renderableType := 8, redBits := 8, greenBits := 8, blueBits := 8,
       alphaBits := 8, depthBits := 24, stencilBits := 8, samples := 0,
       visualTransparent := false, handle := 77 }]
    rfl (by decide) (by decide)
  rw [h]
  rw [if_pos (by decide)]
  rfl

/-- A first acquisition (zero count) on a free monitor saves and disables the
screen saver, increments the count and attaches the window. -/
theorem acquireMonitor_eq_first (w m : Nat) (s : SaverState)
    (hc : s.count = 0) (h : s.attached m = none) :
    acquireMonitor w m s =
      { count := s.count + 1,
        attached := (fun m2 => if m2 = m then some w else s.attached m2),
        disables := s.disables + 1, restores := s.restores } := by
  simp [acquireMonitor, hc, h]

/-- An acquisition with a positive count on a free monitor increments the
count and attaches the window without touching the screen saver. -/
theorem acquireMonitor_eq_pos (w m : Nat) (s : SaverState)
    (hc : ¬s.count = 0) (h : s.attached m = none) :
    acquireMonitor w m s =
      { count := s.count + 1,
        attached := (fun m2 => if m2 = m then some w else s.attached m2),
        disables := s.disables, restores := s.restores } := by
  simp [acquireMonitor, hc, h]

/-- A matching release detaches the window, decrements the count and restores
the screen saver exactly when the count returns to zero. -/
theorem releaseMonitor_eq_match (w m : Nat) (s : SaverState)
    (h : s.attached m = some w) :
    releaseMonitor w m s =
      { count := s.count - 1,
        attached := (fun m2 => if m2 = m then none else s.attached m2),
        disables := s.disables,
        restores := if s.count - 1 = 0 then s.restores + 1
                    else s.restores } := by
  simp only [releaseMonitor]
  rw [if_neg (by simp [h])]
  by_cases hc : s.count - 1 = 0 <;> simp [hc]

/-- Acquiring a run of distinct free monitors from a state with a positive
count adds one to the count per acquisition, never touches the screen saver,
attaches every window to its monitor and leaves other monitors unchanged. -/
theorem acquireAll_props (ps : List (Nat × Nat)) (s : SaverState)
    (hpos : 0 < s.count)
    (hnd : (ps.map Prod.snd).Nodup)
    (hun : ∀ p ∈ ps, s.attached p.2 = none) :
    (acquireAll ps s).count = s.count + ps.length ∧
    (acquireAll ps s).disables = s.disables ∧
    (acquireAll ps s).restores = s.restores ∧
    (∀ p ∈ ps, (acquireAll ps s).attached p.2 = some p.1) ∧
    (∀ m, m ∉ ps.map Prod.snd →
      (acquireAll ps s).attached m = s.attached m) := by
  induction ps generalizing s with
  | nil => simp [acquireAll]
  | cons p rest ih =>
    have hstep : acquireMonitor p.1 p.2 s =
        { count := s.count + 1,
          attached := (fun m2 => if m2 = p.2 then some p.1 else s.attached m2),
          disables := s.disables, restores := s.restores } :=
      acquireMonitor_eq_pos p.1 p.2 s (by omega)
        (hun p (List.mem_cons_self p rest))
    have hall : acquireAll (p :: rest) s =
        acquireAll rest (acquireMonitor p.1 p.2 s) := rfl
    have hnds : (p.2 :: rest.map Prod.snd).Nodup := by simpa using hnd
    have hp2 : p.2 ∉ rest.map Prod.snd := (List.nodup_cons.mp hnds).1
    have hnd2 : (rest.map Prod.snd).Nodup := (List.nodup_cons.mp hnds).2
    obtain ⟨ihc, ihd, ihr, ihatt, ihoff⟩ := ih
      { count := s.count + 1,
        attached := (fun m2 => if m2 = p.2 then some p.1 else s.attached m2),
        disables := s.disables, restores := s.restores }
      (by simp; omega) hnd2
      (fun q hq => by
        have hq2 : q.2 ≠ p.2 := by
          intro he
          exact hp2 (he ▸ List.mem_map_of_mem Prod.snd hq)
        simp [hq2, hun q (List.mem_cons_of_mem p hq)])
    rw [hall, hstep]
    refine ⟨?_, ?_, ?_, ?_, ?_⟩
    · rw [ihc]
      simp [List.length_cons]
      ring
    · rw [ihd]
    · rw [ihr]
    · intro q hq
      rcases List.mem_cons.mp hq with hq | hq
      · subst hq
        rw [ihoff q.2 hp2]
        simp
      · exact ihatt q hq
    · intro m hm
      have hm1 : m ≠ p.2 := by
        intro he
        exact hm (by simp [he])
      have hm2 : m ∉ rest.map Prod.snd := fun hin => hm (by simp [hin])
      rw [ihoff m hm2]
      simp [hm1]

/-- Releasing a run of distinct monitors, each attached to its releasing
window, from a state whose count equals the number of releases drives the
count to zero, never disables the screen saver, and restores it exactly once
(when the run is non-empty). -/
theorem releaseAll_props (ps : List (Nat × Nat)) (s : SaverState)
    (hnd : (ps.map Prod.snd).Nodup)
    (hatt : ∀ p ∈ ps, s.attached p.2 = some p.1)
    (hcount : s.count = ps.length) :
    (releaseAll ps s).count = 0 ∧
    (releaseAll ps s).disables = s.disables ∧
    (releaseAll ps s).restores =
      s.restores + (if ps.length = 0 then 0 else 1) := by
  induction ps generalizing s with
  | nil => simp_all [releaseAll]
  | cons p rest ih =>
    have hstep := releaseMonitor_eq_match p.1 p.2 s
      (hatt p (List.mem_cons_self p rest))
    have hall : releaseAll (p :: rest) s =
        releaseAll rest (releaseMonitor p.1 p.2 s) := rfl
    have hc1 : s.count - 1 = (rest.length : Int) := by
      rw [hcount]
      simp [List.length_cons]
    have hnds : (p.2 :: rest.map Prod.snd).Nodup := by simpa using hnd
    have hp2 : p.2 ∉ rest.map Prod.snd := (List.nodup_cons.mp hnds).1
    have hnd2 : (rest.map Prod.snd).Nodup := (List.nodup_cons.mp hnds).2
    obtain ⟨ihc, ihd, ihr⟩ := ih
      { count := s.count - 1,
        attached := (fun m2 => if m2 = p.2 then none else s.attached m2),
        disables := s.disables,
        restores := if s.count - 1 = 0 then s.restores + 1 else s.restores }
      hnd2
      (fun q hq => by
        have hq2 : q.2 ≠ p.2 := by
          intro he
          exact hp2 (he ▸ List.mem_map_of_mem Prod.snd hq)
        simp [hq2, hatt q (List.mem_cons_of_mem p hq)])
      (by simpa using hc1)
    rw [hall, hstep]
    refine ⟨ihc, by rw [ihd], ?_⟩
    rw [ihr]
    by_cases hrest : rest.length = 0
    · have hz : s.count - 1 = 0 := by rw [hc1, hrest]; simp
      simp [hz, hrest]
    · have hz : ¬(s.count - 1 = 0) := by
        rw [hc1]
        intro hh
        exact hrest (by exact_mod_cast hh)
      simp [hz, hrest]

/-- Claim C7: for N windows entering fullscreen on distinct monitors and then
leaving, the screen saver is disabled exactly once (on the zero-to-one
transition of the count) and restored exactly once (when the count returns to
zero after the last release); moreover the count is incremented only when the
monitor had no window attached, and decremented on each matching release. -/
theorem monitor_saver_refcount :
    (∀ ps : List (Nat × Nat), ps ≠ [] → (ps.map Prod.snd).Nodup →
      (acquireAll ps initialSaverState).disables = 1 ∧
      (acquireAll ps initialSaverState).count = ps.length ∧
      (releaseAll ps (acquireAll ps initialSaverState)).disables = 1 ∧
      (releaseAll ps (acquireAll ps initialSaverState)).restores = 1 ∧
      (releaseAll ps (acquireAll ps initialSaverState)).count = 0) ∧
    (∀ (w m : Nat) (s : SaverState), s.attached m = none →
      (acquireMonitor w m s).count = s.count + 1) ∧
    (∀ (w m : Nat) (s : SaverState), s.attached m ≠ none →
      (acquireMonitor w m s).count = s.count) ∧
    (∀ (w m : Nat) (s : SaverState), s.attached m = some w →
      (releaseMonitor w m s).count = s.count - 1) := by
  refine ⟨?_, ?_, ?_, ?_⟩
  · intro ps hne hnd
    rcases ps with _ | ⟨p, rest⟩
    · exact absurd rfl hne
    have hstep : acquireMonitor p.1 p.2 initialSaverState =
        { count := 1,
          attached := (fun m2 => if m2 = p.2 then some p.1 else none),
          disables := 1, restores := 0 } := by
      rw [acquireMonitor_eq_first p.1 p.2 initialSaverState rfl rfl]
      simp [initialSaverState]
    have hall : acquireAll (p :: rest) initialSaverState =
        acquireAll rest (acquireMonitor p.1 p.2 initialSaverState) := rfl
    have hnds : (p.2 :: rest.map Prod.snd).Nodup := by simpa using hnd
    have hp2 : p.2 ∉ rest.map Prod.snd := (List.nodup_cons.mp hnds).1
    have hnd2 : (rest.map Prod.snd).Nodup := (List.nodup_cons.mp hnds).2
    obtain ⟨ihc, ihd, ihr, ihatt, ihoff⟩ := acquireAll_props rest
      { count := 1,
        attached := (fun m2 => if m2 = p.2 then some p.1 else none),
        disables := 1, restores := 0 }
      (by simp) hnd2
      (fun q hq => by
        have hq2 : q.2 ≠ p.2 := by
          intro he
          exact hp2 (he ▸ List.mem_map_of_mem Prod.snd hq)
        simp [hq2])
    have hacq : (acquireAll (p :: rest) initialSaverState).count =
          ((p :: rest).length : Int) ∧
        (acquireAll (p :: rest) initialSaverState).disables = 1 ∧
        (acquireAll (p :: rest) initialSaverState).restores = 0 ∧
        (∀ q ∈ p :: rest,
          (acquireAll (p :: rest) initialSaverState).attached q.2 =
            some q.1) := by
      rw [hall, hstep]
      refine ⟨?_, by rw [ihd], by rw [ihr], ?_⟩
      · rw [ihc]
        simp [List.length_cons]
        ring
      · intro q hq
        rcases List.mem_cons.mp hq with hq | hq
        · subst hq
          rw [ihoff q.2 hp2]
          simp
        · exact ihatt q hq
    obtain ⟨hrc, hrd, hrr⟩ := releaseAll_props (p :: rest)
      (acquireAll (p :: rest) initialSaverState) hnd hacq.2.2.2 hacq.1
    refine ⟨hacq.2.1, hacq.1, ?_, ?_, hrc⟩
    · rw [hrd, hacq.2.1]
    · rw [hrr, hacq.2.2.1]
      simp
  · intro w m s h
    by_cases hc : s.count = 0 <;> simp [acquireMonitor, hc, h]
  · intro w m s h
    by_cases hc : s.count = 0 <;> simp [acquireMonitor, hc, h]
  · intro w m s h
    rw [releaseMonitor_eq_match w m s h]

/-- Witness for `monitor_saver_refcount`: two windows on two distinct
monitors disable the screen saver once and restore it once. -/
theorem monitor_saver_refcount_witness :
    (acquireAll [(1, 10), (2, 20)] initialSaverState).disables = 1 ∧
    (releaseAll [(1, 10), (2, 20)]
        (acquireAll [(1, 10), (2, 20)] initialSaverState)).restores = 1 ∧
    (releaseAll [(1, 10), (2, 20)]
        (acquireAll [(1, 10), (2, 20)] initialSaverState)).count = 0 := by
  have h := monitor_saver_refcount.1 [(1, 10), (2, 20)] (by decide) (by decide)
  exact ⟨h.1, h.2.2.2.1, h.2.2.2.2⟩
